import Mathlib

/-!
Verification of the gorkycode sport-recommendation core: the cohort scorer
(`determine_cohort` in `src/main.py` and `src/app/main.py`) and the facility
matcher (`facility_to_cohorts` / `recommend_facilities` in `src/main.py`),
shallowly embedded over an explicit `UserInput` record.  Python integers are
embedded as `Int`; Python `range(low, high)` membership of an integer is the
half-open test `low ≤ x ∧ x < high`; dict iteration order (insertion order)
is embedded by listing the catalog entries in source order.
-/

namespace Gorkycode

/-- The `UserInput` pydantic model.  Both `src/main.py` and `src/app/main.py`
declare this model with exactly the same fields; Python `int` becomes `Int`,
`float` becomes `Float`, `Optional[T]` becomes `Option T`. -/
structure UserInput where
  fitness_level : Int
  age_category : Int
  training_type : Int
  training_goal : Int
  sports_facility : String
  group_or_individual : Int
  health_status : Int
  training_frequency : Int
  training_time : Int
  chronic_diseases : Option (List String)
  weight : Float
  height : Float
  health_group : Option Int
  skill_focus : Option (List Int)
  cooperation : Bool
  budget : Option Float

/-- `determine_cohort` from `src/main.py` (lines 33-51): a running total
starting at 0, mutated by sequential `+=`/`-=` statements, embedded as a
chain of `let` rebindings in the statement order of the source. -/
def determine_cohort (user : UserInput) : Int :=
  let cohort : Int := 0
  let cohort := cohort + user.fitness_level * 10
  let cohort := cohort + user.age_category
  let cohort := if user.training_goal = 4 ∧ user.fitness_level = 3 then cohort + 20 else cohort
  let cohort := if user.health_status = 3 then cohort - 10 else cohort
  let cohort := if user.training_frequency ≥ 4 then cohort + 5 else cohort
  let cohort :=
    if (user.training_type = 1 ∨ user.training_type = 2) ∧ user.health_status = 1 then
      cohort + 5
    else cohort
  cohort

/-- `determine_cohort` from `src/app/main.py` (lines 81-95), embedded
separately so the two copies can be compared. -/
def app_determine_cohort (user : UserInput) : Int :=
  let cohort : Int := 0
  let cohort := cohort + user.fitness_level * 10
  let cohort := cohort + user.age_category
  let cohort := if user.training_goal = 4 ∧ user.fitness_level = 3 then cohort + 20 else cohort
  let cohort := if user.health_status = 3 then cohort - 10 else cohort
  let cohort := if user.training_frequency ≥ 4 then cohort + 5 else cohort
  let cohort :=
    if (user.training_type = 1 ∨ user.training_type = 2) ∧ user.health_status = 1 then
      cohort + 5
    else cohort
  cohort

/-- The `facility_to_cohorts` dict of `src/main.py` (lines 54-59): each entry
maps a facility name to `range(low, high)`, kept here as `(name, low, high)`
in the dict's insertion order. -/
def facility_to_cohorts : List (String × Int × Int) :=
  [("Фитнес-центр", 20, 50),
   ("Открытый стадион", 10, 40),
   ("Тренажерный зал", 30, 60),
   ("Стадион для соревновательной подготовки", 40, 70)]

/-- The list comprehension inside `recommend_facilities`:
`[facility for facility, valid_cohorts in catalog if cohort in valid_cohorts]`,
where `cohort in range(low, high)` is the half-open test `low ≤ cohort < high`. -/
def match_facilities (cohort : Int) (catalog : List (String × Int × Int)) : List String :=
  (catalog.filter fun f => decide (f.2.1 ≤ cohort ∧ cohort < f.2.2)).map fun f => f.1

/-- The body of `recommend_facilities` (lines 61-66) with the catalog as an
explicit parameter: the comprehension, then Python's
`return facilities if facilities else ["Подходящих площадок не найдено"]`
(list truthiness = nonemptiness). -/
def recommend_from_catalog (cohort : Int) (catalog : List (String × Int × Int)) : List String :=
  let facilities := match_facilities cohort catalog
  if facilities.isEmpty then ["Подходящих площадок не найдено"] else facilities

/-- `recommend_facilities` from `src/main.py`: the body above applied to the
module-level `facility_to_cohorts` dict. -/
def recommend_facilities (cohort : Int) : List String :=
  recommend_from_catalog cohort facility_to_cohorts

/-- The `Recommendation` response model of `src/main.py`. -/
structure Recommendation where
  cohort : Int
  recommended_facilities : List String
deriving DecidableEq

/-- The `get_recommendations` route body of `src/main.py` (lines 69-77): the
`try` block runs the scorer and the matcher; any exception would be caught
and re-raised as an HTTP 500, embedded as `Except.error`. -/
def get_recommendations (user : UserInput) : Except String Recommendation :=
  let result : Except String Recommendation := do
    let cohort := determine_cohort user
    let facilities := recommend_facilities cohort
    pure ⟨cohort, facilities⟩
  match result with
  | Except.ok r => Except.ok r
  | Except.error e => Except.error ("Ошибка обработки данных: " ++ e)

/-- The declared domains of the six scoring fields (spec §3): fitness_level
1-3, age_category 1-4, training_goal 1-4, health_status 1-3,
training_type 1-4, training_frequency a non-negative integer. -/
def inDomain (u : UserInput) : Prop :=
  1 ≤ u.fitness_level ∧ u.fitness_level ≤ 3 ∧
  1 ≤ u.age_category ∧ u.age_category ≤ 4 ∧
  1 ≤ u.training_goal ∧ u.training_goal ≤ 4 ∧
  1 ≤ u.health_status ∧ u.health_status ≤ 3 ∧
  1 ≤ u.training_type ∧ u.training_type ≤ 4 ∧
  0 ≤ u.training_frequency

instance (u : UserInput) : Decidable (inDomain u) := by
  unfold inDomain
  exact inferInstance

/-- The spec's worked "bonus stacking" example input: fitness_level=3,
age_category=4, training_goal=4, health_status=1, training_frequency=5,
training_type=1; the non-scoring fields are arbitrary concrete values. -/
def exampleUser : UserInput :=
  { fitness_level := 3
    age_category := 4
    training_type := 1
    training_goal := 4
    sports_facility := "фитнес-центр"
    group_or_individual := 1
    health_status := 1
    training_frequency := 5
    training_time := 1
    chronic_diseases := none
    weight := 70.0
    height := 170.0
    health_group := none
    skill_focus := none
    cooperation := true
    budget := none }

/-- An input whose scoring fields are all in-domain except `fitness_level`,
which is 0 (out of its declared 1-3 domain); with `health_status = 3` the
scorer goes negative on it. -/
def outOfDomainUser : UserInput :=
  { fitness_level := 0
    age_category := 1
    training_type := 4
    training_goal := 1
    sports_facility := ""
    group_or_individual := 2
    health_status := 3
    training_frequency := 0
    training_time := 2
    chronic_diseases := none
    weight := 60.0
    height := 160.0
    health_group := none
    skill_focus := none
    cooperation := false
    budget := none }

/-- Bounds helper: on in-domain input the scorer lands in [1, 64]. -/
lemma cohort_bounds_aux (u : UserInput) (h : inDomain u) :
    1 ≤ determine_cohort u ∧ determine_cohort u ≤ 64 := by
  obtain ⟨h1, h2, h3, h4, h5, h6, h7, h8, h9, h10, h11⟩ := h
  simp only [determine_cohort]
  split_ifs <;> omega

/-- C1: `determine_cohort` equals the spec's closed-form rule table —
`fitness_level * 10 + age_category`, plus 20 when `training_goal = 4` and
`fitness_level = 3`, minus 10 when `health_status = 3`, plus 5 when
`training_frequency ≥ 4`, plus 5 when `training_type ∈ {1, 2}` and
`health_status = 1`, and nothing else — and on the spec's worked example
(fitness 3, age 4, goal 4, health 1, frequency 5, type 1) it returns 64. -/
theorem determine_cohort_formula :
    (∀ u : UserInput,
      determine_cohort u =
        u.fitness_level * 10 + u.age_category
          + (if u.training_goal = 4 ∧ u.fitness_level = 3 then 20 else 0)
          - (if u.health_status = 3 then 10 else 0)
          + (if u.training_frequency ≥ 4 then 5 else 0)
          + (if (u.training_type = 1 ∨ u.training_type = 2) ∧ u.health_status = 1
              then 5 else 0))
    ∧ determine_cohort exampleUser = 64 := by
  refine ⟨fun u => ?_, by decide⟩
  simp only [determine_cohort]
  split_ifs <;> omega

/-- C10: the two copies of the scorer — `determine_cohort` in `src/main.py`
and in `src/app/main.py` — agree on every input. -/
theorem scorers_extensionally_equal (u : UserInput) :
    determine_cohort u = app_determine_cohort u := rfl

/-- C7: the route body is total — for every input the scorer produces an
integer cohort, the matcher produces a list, and the handler returns
`Except.ok`; the exception branch (HTTP 500) is unreachable because every
operation in the embedded `try` block (integer arithmetic, comparisons,
list membership) is total. -/
theorem get_recommendations_total (u : UserInput) :
    get_recommendations u =
      Except.ok ⟨determine_cohort u, recommend_facilities (determine_cohort u)⟩ := rfl

/-- C4 counterexample: there is no in-domain input on which the scorer is
negative — `fitness_level ≥ 1` forces a base of at least 10, and the only
deduction is 10. -/
theorem no_negative_cohort_in_domain :
    ¬ ∃ u : UserInput, inDomain u ∧ determine_cohort u < 0 := by
  rintro ⟨u, hdom, hneg⟩
  have hb := cohort_bounds_aux u hdom
  omega

/-- C4 amended: on every in-domain input the scorer is non-negative (in fact
at least 1); a negative cohort arises only from out-of-domain input — e.g.
fitness_level = 0 (below its 1-3 domain) with age_category = 1 and
health_status = 3 yields -9 — and such a value is returned normally as an
integer, not an error. -/
theorem negative_cohort_needs_out_of_domain :
    (∀ u : UserInput, inDomain u → 0 ≤ determine_cohort u)
    ∧ determine_cohort outOfDomainUser = -9
    ∧ get_recommendations outOfDomainUser =
        Except.ok ⟨-9, ["Подходящих площадок не найдено"]⟩ := by
  refine ⟨fun u h => ?_, by decide, rfl⟩
  have hb := cohort_bounds_aux u h
  omega

/-- C4 amended witness: the bound instantiated at the spec's example user. -/
theorem negative_cohort_needs_out_of_domain_witness :
    0 ≤ determine_cohort exampleUser :=
  negative_cohort_needs_out_of_domain.1 exampleUser (by decide)

/-- C8: on every input whose six scoring fields are in their declared
domains, the cohort lies between 1 and 64 inclusive; in particular it is
never negative in-domain. -/
theorem determine_cohort_bounds (u : UserInput) (h : inDomain u) :
    1 ≤ determine_cohort u ∧ determine_cohort u ≤ 64 :=
  cohort_bounds_aux u h

/-- C8 witness: the bounds at the spec's worked example (cohort 64). -/
theorem determine_cohort_bounds_witness :
    1 ≤ determine_cohort exampleUser ∧ determine_cohort exampleUser ≤ 64 :=
  determine_cohort_bounds exampleUser (by decide)

/-- C3 counterexample: at cohort 0 the matcher applied to an empty catalog
returns the sentinel list, not the empty list the claim states. -/
theorem empty_catalog_not_empty_list :
    recommend_from_catalog 0 [] = ["Подходящих площадок не найдено"]
    ∧ recommend_from_catalog 0 [] ≠ [] := by decide

/-- C3 amended: matching against an empty catalog raises no error and
matches no facility, but the matcher's fallback then returns the
single-element sentinel list ["Подходящих площадок не найдено"] rather than
the empty list. -/
theorem empty_catalog_returns_sentinel (cohort : Int) :
    match_facilities cohort [] = []
    ∧ recommend_from_catalog cohort [] = ["Подходящих площадок не найдено"] :=
  ⟨rfl, rfl⟩

/-- C2: the matcher's membership test is half-open — when catalog names are
unique (as the spec requires of a catalog), a name is in the match result
iff its entry's range satisfies `low ≤ cohort < high`; in particular a
cohort equal to `low` matches and a cohort equal to `high` does not. -/
theorem match_facilities_halfopen (cohort low high : Int) (name : String)
    (catalog : List (String × Int × Int))
    (hmem : (name, low, high) ∈ catalog)
    (hnodup : (catalog.map fun f => f.1).Nodup) :
    name ∈ match_facilities cohort catalog ↔ (low ≤ cohort ∧ cohort < high) := by
  unfold match_facilities
  constructor
  · intro hin
    obtain ⟨e, he, hname⟩ := List.mem_map.mp hin
    have hef := List.mem_filter.mp he
    have heq : e = (name, low, high) :=
      List.inj_on_of_nodup_map hnodup hef.1 hmem hname
    have hd := of_decide_eq_true hef.2
    rw [heq] at hd
    exact hd
  · intro hlh
    refine List.mem_map.mpr ⟨(name, low, high), List.mem_filter.mpr ⟨hmem, ?_⟩, rfl⟩
    exact decide_eq_true hlh

/-- C2 witness: on the spec's two-entry catalog at the shared boundary 30,
"B" (range starting at 30) matches and "A" (range ending at 30) does not. -/
theorem match_facilities_halfopen_witness :
    (("B" ∈ match_facilities 30 [("A", 10, 30), ("B", 30, 60)])
      ↔ ((30 : Int) ≤ 30 ∧ (30 : Int) < 60))
    ∧ (("A" ∈ match_facilities 30 [("A", 10, 30), ("B", 30, 60)])
      ↔ ((10 : Int) ≤ 30 ∧ (30 : Int) < 30)) :=
  ⟨match_facilities_halfopen 30 30 60 "B" [("A", 10, 30), ("B", 30, 60)]
      (by decide) (by decide),
   match_facilities_halfopen 30 10 30 "A" [("A", 10, 30), ("B", 30, 60)]
      (by decide) (by decide)⟩

/-- C5: the scorer depends on exactly the six scoring fields — two inputs
agreeing on fitness_level, age_category, training_goal, health_status,
training_frequency and training_type get the same cohort, whatever their
other fields are. -/
theorem cohort_depends_only_on_scoring_fields (u v : UserInput)
    (h1 : u.fitness_level = v.fitness_level)
    (h2 : u.age_category = v.age_category)
    (h3 : u.training_goal = v.training_goal)
    (h4 : u.health_status = v.health_status)
    (h5 : u.training_frequency = v.training_frequency)
    (h6 : u.training_type = v.training_type) :
    determine_cohort u = determine_cohort v := by
  simp only [determine_cohort, h1, h2, h3, h4, h5, h6]

/-- The spec's worked example input with every non-scoring field changed:
different facility text, format, time, diseases, weight, height, health
group, skill focus, cooperation flag and budget. -/
def exampleUserVaried : UserInput :=
  { exampleUser with
    sports_facility := "открытый стадион"
    group_or_individual := 2
    training_time := 3
    chronic_diseases := some ["астма"]
    weight := 95.5
    height := 185.0
    health_group := some 2
    skill_focus := some [1, 2]
    cooperation := false
    budget := some 5000.0 }

/-- C5 witness: the cohort is unchanged when only non-scoring fields vary. -/
theorem cohort_depends_only_on_scoring_fields_witness :
    determine_cohort exampleUser = determine_cohort exampleUserVaried :=
  cohort_depends_only_on_scoring_fields exampleUser exampleUserVaried
    rfl rfl rfl rfl rfl rfl

/-- C6: the match result is a subsequence of the catalog's name list —
matching names appear in catalog iteration order, with no reordering by
name or score. -/
theorem match_preserves_catalog_order (cohort : Int)
    (catalog : List (String × Int × Int)) :
    (match_facilities cohort catalog).Sublist (catalog.map fun f => f.1) := by
  unfold match_facilities
  exact (List.filter_sublist catalog).map fun f => f.1

/-- C9: `recommend_facilities` never returns the empty list — its result is
the sentinel list ["Подходящих площадок не найдено"] exactly when no
catalog range contains the cohort, i.e. when cohort < 10 or cohort ≥ 70,
and otherwise contains at least one facility name. -/
theorem recommend_facilities_never_empty (cohort : Int) :
    recommend_facilities cohort ≠ []
    ∧ (recommend_facilities cohort = ["Подходящих площадок не найдено"]
        ↔ (cohort < 10 ∨ 70 ≤ cohort)) := by
  by_cases h1 : (20 : Int) ≤ cohort ∧ cohort < 50 <;>
  by_cases h2 : (10 : Int) ≤ cohort ∧ cohort < 40 <;>
  by_cases h3 : (30 : Int) ≤ cohort ∧ cohort < 60 <;>
  by_cases h4 : (40 : Int) ≤ cohort ∧ cohort < 70 <;>
    simp [recommend_facilities, recommend_from_catalog, match_facilities,
      facility_to_cohorts, h1, h2, h3, h4] <;>
    omega

end Gorkycode
